import Mathlib

/-!
Verification of the VPC provisioning / teardown script
(`scripts/01_vpc_tutorial.py`) of the `aws-experiments` repository.

The script is a sequential sequence of provider (EC2 API) calls.  We embed
each function of the script as the list of provider calls it issues, in
order, on its happy path; provider failures (boto3 `ClientError`) are
modelled by a function `fail : Call → Bool` telling which call raises, and
`runCalls` replays a trace until the first raising call, mirroring the
script's `try/except ... raise` structure, which aborts on the first error.
-/

/-- A provider (EC2 API) call, as issued by the tutorial script.  The
constructors cover every boto3 call the script makes, together with the
calls the specification talks about but the script never issues
(`disassociateRouteTable`, `describeByTag`), so their absence from a trace
is expressible. -/
inductive Call where
  | createVpc (cidr : String)
  | createTags (rid name : String)
  | waitVpcAvailable (rid : String)
  | modifyVpcAttribute (rid attr : String)
  | createIgw
  | attachIgw (vpcId igwId : String)
  | createSubnet (vpcId cidr az : String)
  | modifySubnetAttribute (rid attr : String)
  | createRouteTable (vpcId : String)
  | createRoute (rtId destCidr gatewayId : String)
  | associateRouteTable (rtId subnetId : String)
  | disassociateRouteTable (assocId : String)
  | describeByTag (kind name : String)
  | deleteSubnet (rid : String)
  | detachIgw (vpcId igwId : String)
  | deleteIgw (rid : String)
  | deleteRouteTable (rid : String)
  | deleteVpc (rid : String)
  deriving DecidableEq

/-- Trace of `create_vpc()` (script lines 21-41): unconditionally create a
`10.0.0.0/16` VPC, tag it `tutorial-vpc`, wait, and enable DNS hostnames.
The provider-assigned id is the parameter `vpcId`.  The function consults
no provider state before creating. -/
def create_vpc (vpcId : String) : List Call :=
  [Call.createVpc "10.0.0.0/16",
   Call.createTags vpcId "tutorial-vpc",
   Call.waitVpcAvailable vpcId,
   Call.modifyVpcAttribute vpcId "EnableDnsHostnames"]

/-- Trace of `create_internet_gateway(vpc)` (lines 44-58): create, tag
`tutorial-igw`, attach to the VPC. -/
def create_internet_gateway (vpcId igwId : String) : List Call :=
  [Call.createIgw,
   Call.createTags igwId "tutorial-igw",
   Call.attachIgw vpcId igwId]

/-- Trace of `create_subnet(vpc, cidr, availability_zone, name, is_public)`
(lines 61-84): unconditionally issue the create call, tag, and if public
enable `MapPublicIpOnLaunch`.  No validation of any kind (in particular no
CIDR-overlap check) happens before the provider call. -/
def create_subnet (vpcId subnetId cidr az name : String) (is_public : Bool) :
    List Call :=
  [Call.createSubnet vpcId cidr az, Call.createTags subnetId name]
  ++ (if is_public then [Call.modifySubnetAttribute subnetId "MapPublicIpOnLaunch"] else [])

/-- Trace of `create_route_table(vpc, name, igw=None, subnet=None)`
(lines 87-113): create and tag the table; if an internet gateway is given,
add the `0.0.0.0/0` route to it; if a subnet is given, associate it. -/
def create_route_table (vpcId rtId name : String) (igw subnet : Option String) :
    List Call :=
  [Call.createRouteTable vpcId, Call.createTags rtId name]
  ++ (match igw with
      | some g => [Call.createRoute rtId "0.0.0.0/0" g]
      | none => [])
  ++ (match subnet with
      | some sn => [Call.associateRouteTable rtId sn]
      | none => [])

/-- The full creation-phase trace of `main()` (lines 195-257), with the
provider-assigned ids written symbolically: VPC, internet gateway, two
public subnets, one private subnet, public route table (route + first
association), extra association for the second public subnet, private
route table. -/
def mainCreateCalls : List Call :=
  create_vpc "vpc-1"
  ++ create_internet_gateway "vpc-1" "igw-1"
  ++ create_subnet "vpc-1" "subnet-1" "10.0.1.0/24" "us-east-2a" "tutorial-public-subnet-1" true
  ++ create_subnet "vpc-1" "subnet-2" "10.0.2.0/24" "us-east-2b" "tutorial-public-subnet-2" true
  ++ create_subnet "vpc-1" "subnet-3" "10.0.10.0/24" "us-east-2a" "tutorial-private-subnet-1" false
  ++ create_route_table "vpc-1" "rtb-pub" "tutorial-public-rt" (some "igw-1") (some "subnet-1")
  ++ [Call.associateRouteTable "rtb-pub" "subnet-2"]
  ++ create_route_table "vpc-1" "rtb-priv" "tutorial-private-rt" none (some "subnet-3")

/-- A resource existing on the provider, carrying its `Name` tag, as
re-running the script would find it. -/
structure TaggedResource where
  rid : String
  nameTag : String
  deriving DecidableEq

/-- The creation phase of the script as a function of the provider state it
is run against.  The script reads nothing from the provider before
creating (`main` performs no describe/list call in its creation phase), so
the issued trace is the same for every state. -/
def applyRerun (existing : List TaggedResource) : List Call :=
  match existing with
  | _ => mainCreateCalls

/-- Name tags given to the seven resources of the plan. -/
def plannedNames : List String :=
  ["tutorial-vpc", "tutorial-igw",
   "tutorial-public-subnet-1", "tutorial-public-subnet-2",
   "tutorial-private-subnet-1", "tutorial-public-rt", "tutorial-private-rt"]

/-- Does a provider state contain a resource carrying the given Name tag. -/
def hasName (existing : List TaggedResource) (n : String) : Bool :=
  existing.any fun r => r.nameTag == n

/-- A provider state in which all seven planned resources already exist,
matched by Name tag (the subnets with their plan CIDRs, elided: matching
is by Name tag here). -/
def preExisting : List TaggedResource :=
  [⟨"vpc-0", "tutorial-vpc"⟩, ⟨"igw-0", "tutorial-igw"⟩,
   ⟨"subnet-01", "tutorial-public-subnet-1"⟩, ⟨"subnet-02", "tutorial-public-subnet-2"⟩,
   ⟨"subnet-03", "tutorial-private-subnet-1"⟩, ⟨"rtb-01", "tutorial-public-rt"⟩,
   ⟨"rtb-02", "tutorial-private-rt"⟩]

/-- Is the call one of the four resource-creating provider calls. -/
def isCreateCall : Call → Bool
  | Call.createVpc _ => true
  | Call.createIgw => true
  | Call.createSubnet _ _ _ => true
  | Call.createRouteTable _ => true
  | _ => false

/-- Is the call a read (lookup) of provider state. -/
def isLookupCall : Call → Bool
  | Call.describeByTag _ _ => true
  | _ => false

/-- Is the call a route-table delete. -/
def isDeleteRouteTable : Call → Bool
  | Call.deleteRouteTable _ => true
  | _ => false

/-- Is the call a route-table disassociation. -/
def isDisassociate : Call → Bool
  | Call.disassociateRouteTable _ => true
  | _ => false

/-- Is the call a route creation. -/
def isCreateRoute : Call → Bool
  | Call.createRoute _ _ _ => true
  | _ => false

/-- Is the call a route-table/subnet association. -/
def isAssociate : Call → Bool
  | Call.associateRouteTable _ _ => true
  | _ => false

/-- Is the call a VPC delete. -/
def isDeleteVpcCall : Call → Bool
  | Call.deleteVpc _ => true
  | _ => false

/-- One entry of a route table's `associations_attribute`: the association
id and its `Main` flag. -/
structure RtAssoc where
  assocId : String
  main : Bool
  deriving DecidableEq

/-- A route table as listed by `vpc.route_tables.all()`: its id and its
associations attribute. -/
structure RouteTableInfo where
  rtid : String
  assocs : List RtAssoc
  deriving DecidableEq

/-- The provider-side contents of the VPC as the listing calls inside
`cleanup_vpc` return them: subnet ids, attached internet-gateway ids, and
route tables with their associations. -/
structure VpcState where
  subnets : List String
  igws : List String
  routeTables : List RouteTableInfo
  deriving DecidableEq

/-- Trace of `cleanup_vpc(vpc_id)` (lines 151-192) on its happy path:
delete every subnet; for every attached internet gateway detach then
delete; delete every route table whose associations attribute is empty or
has no entry with a truthy `Main`; finally delete the VPC.  The guard
mirrors line 179 of the script verbatim:
`not rt.associations_attribute or not any(a.get('Main') ...)`. -/
def cleanup_vpc (vpcId : String) (s : VpcState) : List Call :=
  (s.subnets.map Call.deleteSubnet)
  ++ (s.igws.flatMap fun g => [Call.detachIgw vpcId g, Call.deleteIgw g])
  ++ ((s.routeTables.filter fun rt =>
        rt.assocs.isEmpty || !(rt.assocs.any fun a => a.main)).map fun rt =>
        Call.deleteRouteTable rt.rtid)
  ++ [Call.deleteVpc vpcId]

/-- The part of the `cleanup_vpc` trace preceding the final VPC delete. -/
def cleanupBody (vpcId : String) (s : VpcState) : List Call :=
  (s.subnets.map Call.deleteSubnet)
  ++ (s.igws.flatMap fun g => [Call.detachIgw vpcId g, Call.deleteIgw g])
  ++ ((s.routeTables.filter fun rt =>
        rt.assocs.isEmpty || !(rt.assocs.any fun a => a.main)).map fun rt =>
        Call.deleteRouteTable rt.rtid)

/-- Replay a trace against a provider that makes the calls in `fail` raise
`ClientError`.  Mirrors the script's single `try/except` around the whole
body with a bare `raise`: the calls actually issued are returned together
with the raising call, if any; nothing after the first raising call is
issued. -/
def runCalls (fail : Call → Bool) : List Call → List Call × Option Call
  | [] => ([], none)
  | c :: rest =>
    if fail c then ([c], some c)
    else
      let r := runCalls fail rest
      (c :: r.1, r.2)

/-- `cleanup_vpc` executed against a provider with failure behaviour
`fail`. -/
def cleanupRun (fail : Call → Bool) (vpcId : String) (s : VpcState) :
    List Call × Option Call :=
  runCalls fail (cleanup_vpc vpcId s)

/-- The VPC contents right after a successful provisioning run of `main()`:
three subnets, the attached gateway, the implicit main route table (whose
single association has `Main = true`) and the two script-created tables
with their explicit (non-main) associations. -/
def postProvisionState : VpcState :=
  { subnets := ["subnet-1", "subnet-2", "subnet-3"]
    igws := ["igw-1"]
    routeTables :=
      [⟨"rtb-main", [⟨"rtbassoc-main", true⟩]⟩,
       ⟨"rtb-pub", [⟨"rtbassoc-1", false⟩, ⟨"rtbassoc-2", false⟩]⟩,
       ⟨"rtb-priv", [⟨"rtbassoc-3", false⟩]⟩] }

/-- Ids of the resources a trace deletes, in issue order. -/
def deletedIds : List Call → List String
  | [] => []
  | Call.deleteSubnet i :: rest => i :: deletedIds rest
  | Call.deleteIgw i :: rest => i :: deletedIds rest
  | Call.deleteRouteTable i :: rest => i :: deletedIds rest
  | Call.deleteVpc i :: rest => i :: deletedIds rest
  | _ :: rest => deletedIds rest

/-- Ids of the resources a trace creates, in creation order (each created
resource is tagged right after its create call, and only then). -/
def createdIds : List Call → List String
  | [] => []
  | Call.createTags rid _ :: rest => rid :: createdIds rest
  | _ :: rest => createdIds rest

/-- Modelled from the spec: the repository contains no dependency-graph
component; `topological_create_order` / `topological_delete_order` exist
only in the specification (section 4.1).  A graph is the insertion-ordered
list of nodes, each with its dependency list. -/
structure DepGraph where
  nodes : List (String × List String)

/-- Modelled from the spec: the dependencies recorded for a node. -/
def depsOf (g : DepGraph) (n : String) : List String :=
  (g.nodes.find? fun p => p.1 == n).elim [] Prod.snd

/-- Modelled from the spec: one Kahn round per unit of fuel — emit the
first (insertion order) still-pending node all of whose dependencies are
already emitted.  `emitted` is kept in reverse chronological order. -/
def kahnAux (f : String → List String) : Nat → List String → List String → List String
  | 0, _, emitted => emitted.reverse
  | fuel + 1, pending, emitted =>
    match pending.find? (fun n => (f n).all fun d => emitted.contains d) with
    | none => emitted.reverse
    | some n => kahnAux f fuel (pending.erase n) (n :: emitted)

/-- Modelled from the spec: a stable topological sort over the depends-on
edges, ties broken by insertion order. -/
def topological_create_order (g : DepGraph) : List String :=
  kahnAux (fun n => depsOf g n) g.nodes.length (g.nodes.map Prod.fst) []

/-- Modelled from the spec: the delete order is the exact reverse of the
create order. -/
def topological_delete_order (g : DepGraph) : List String :=
  (topological_create_order g).reverse

/-- Every element's dependencies occur after it (traces kept in reverse
chronological order). -/
def revGood (f : String → List String) : List String → Prop
  | [] => True
  | x :: rest => (∀ d ∈ f x, d ∈ rest) ∧ revGood f rest

/-- The dependency graph of the concrete plan of `main()`. -/
def planGraph : DepGraph :=
  ⟨[("vpc", []), ("igw", ["vpc"]),
    ("public-subnet-1", ["vpc"]), ("public-subnet-2", ["vpc"]),
    ("private-subnet-1", ["vpc"]),
    ("public-rt", ["vpc", "igw", "public-subnet-1", "public-subnet-2"]),
    ("private-rt", ["vpc", "private-subnet-1"])]⟩

/-- An IPv4 address from its four dotted-quad components. -/
def mkIpv4 (a b c d : Nat) : Nat := ((a * 256 + b) * 256 + c) * 256 + d

/-- Modelled from the spec: two CIDR blocks (network base address and
prefix length) overlap when their address ranges intersect.  The
repository contains no such check; the definition exists to state the
overlap premise of the spec's rejection requirement. -/
def cidrsOverlap (b1 p1 b2 p2 : Nat) : Bool :=
  decide (b1 < b2 + 2 ^ (32 - p2)) && decide (b2 < b1 + 2 ^ (32 - p1))

/-! ### Helper lemmas -/

/-- `cleanup_vpc` is its body followed by the final VPC delete. -/
theorem cleanup_eq_body (v : String) (s : VpcState) :
    cleanup_vpc v s = cleanupBody v s ++ [Call.deleteVpc v] := rfl

/-- Every call in the body of the cleanup trace is a subnet delete, a
gateway detach, a gateway delete, or a route-table delete. -/
theorem mem_cleanupBody_shape (v : String) (s : VpcState) (c : Call)
    (hc : c ∈ cleanupBody v s) :
    (∃ x, c = Call.deleteSubnet x) ∨ (∃ g, c = Call.detachIgw v g) ∨
    (∃ g, c = Call.deleteIgw g) ∨ (∃ r, c = Call.deleteRouteTable r) := by
  simp only [cleanupBody, List.mem_append, List.mem_map, List.mem_flatMap,
    List.mem_filter] at hc
  rcases hc with (⟨x, _, rfl⟩ | ⟨g, _, hmem⟩) | ⟨rt, _, rfl⟩
  · exact Or.inl ⟨x, rfl⟩
  · simp only [List.mem_cons, List.not_mem_nil, or_false] at hmem
    rcases hmem with rfl | rfl
    · exact Or.inr (Or.inl ⟨g, rfl⟩)
    · exact Or.inr (Or.inr (Or.inl ⟨g, rfl⟩))
  · exact Or.inr (Or.inr (Or.inr ⟨rt.rtid, rfl⟩))

/-- Every call in the cleanup trace is one of the five teardown calls. -/
theorem mem_cleanup_shape (v : String) (s : VpcState) (c : Call)
    (hc : c ∈ cleanup_vpc v s) :
    (∃ x, c = Call.deleteSubnet x) ∨ (∃ g, c = Call.detachIgw v g) ∨
    (∃ g, c = Call.deleteIgw g) ∨ (∃ r, c = Call.deleteRouteTable r) ∨
    c = Call.deleteVpc v := by
  rw [cleanup_eq_body] at hc
  rcases List.mem_append.mp hc with h | h
  · rcases mem_cleanupBody_shape v s c h with h | h | h | h
    · exact Or.inl h
    · exact Or.inr (Or.inl h)
    · exact Or.inr (Or.inr (Or.inl h))
    · exact Or.inr (Or.inr (Or.inr (Or.inl h)))
  · simp only [List.mem_singleton] at h
    exact Or.inr (Or.inr (Or.inr (Or.inr h)))

/-- The body of the cleanup trace contains no VPC delete. -/
theorem cleanupBody_countP_deleteVpc (v : String) (s : VpcState) :
    (cleanupBody v s).countP isDeleteVpcCall = 0 := by
  rw [List.countP_eq_zero]
  intro c hc
  rcases mem_cleanupBody_shape v s c hc with ⟨x, rfl⟩ | ⟨g, rfl⟩ | ⟨g, rfl⟩ | ⟨r, rfl⟩ <;>
    simp [isDeleteVpcCall]

/-- The script's route-table guard (empty associations, or none marked
main) is equivalent to having no association marked main. -/
theorem rtGuard_eq (rt : RouteTableInfo) :
    (rt.assocs.isEmpty || !(rt.assocs.any fun a => a.main)) =
      !(rt.assocs.any fun a => a.main) := by
  cases h : rt.assocs with
  | nil => simp
  | cons a l => simp [h]

/-- Subnet deletes are not route-table deletes. -/
theorem filter_deleteRT_subnetSegment (l : List String) :
    (l.map Call.deleteSubnet).filter isDeleteRouteTable = [] := by
  induction l with
  | nil => rfl
  | cons x xs ih => simp [List.filter_cons, isDeleteRouteTable, ih]

/-- Gateway detaches and deletes are not route-table deletes. -/
theorem filter_deleteRT_igwSegment (v : String) (l : List String) :
    ((l.flatMap fun g => [Call.detachIgw v g, Call.deleteIgw g]).filter
      isDeleteRouteTable) = [] := by
  induction l with
  | nil => rfl
  | cons g gs ih => simp [List.filter_cons, isDeleteRouteTable, ih]

/-- Route-table deletes all pass the route-table-delete filter. -/
theorem filter_deleteRT_rtSegment (l : List RouteTableInfo) :
    ((l.map fun rt => Call.deleteRouteTable rt.rtid).filter isDeleteRouteTable) =
      l.map fun rt => Call.deleteRouteTable rt.rtid := by
  induction l with
  | nil => rfl
  | cons rt rts ih => simp [List.filter_cons, isDeleteRouteTable, ih]

/-! ### Claim theorems -/

/-- C9 (confirmed): during cleanup, a route-table delete call is issued
exactly for the route tables that have no association marked `Main`
(including tables with no associations at all, since the script's guard
`not associations or not any Main` is equivalent to `no Main association`),
and no disassociation call is ever issued, so main-associated tables are
left untouched for the VPC delete to remove implicitly. -/
theorem cleanup_route_table_delete_iff_no_main_assoc (v : String) (s : VpcState) :
    (cleanup_vpc v s).filter isDeleteRouteTable =
      ((s.routeTables.filter fun rt => !(rt.assocs.any fun a => a.main)).map
        fun rt => Call.deleteRouteTable rt.rtid) ∧
    (cleanup_vpc v s).countP isDisassociate = 0 := by
  constructor
  · have hguard : (s.routeTables.filter fun rt =>
        rt.assocs.isEmpty || !(rt.assocs.any fun a => a.main)) =
        s.routeTables.filter fun rt => !(rt.assocs.any fun a => a.main) :=
      List.filter_congr fun rt _ => rtGuard_eq rt
    rw [cleanup_vpc, List.filter_append, List.filter_append, List.filter_append,
      filter_deleteRT_subnetSegment, filter_deleteRT_igwSegment,
      filter_deleteRT_rtSegment, hguard]
    simp [List.filter_cons, isDeleteRouteTable]
  · rw [List.countP_eq_zero]
    intro c hc
    rcases mem_cleanup_shape v s c hc with ⟨x, rfl⟩ | ⟨g, rfl⟩ | ⟨g, rfl⟩ | ⟨r, rfl⟩ | rfl <;>
      simp [isDisassociate]

/-- C10 (confirmed): `create_route_table` issues exactly one route-creation
call, with destination `0.0.0.0/0` targeting the given gateway, precisely
when a gateway argument is supplied; issues the subnet association call
precisely when a subnet argument is supplied; and with neither argument
produces only the bare table-create and Name-tag calls. -/
theorem create_route_table_optional_steps (vpcId rtId name : String)
    (igw subnet : Option String) :
    ((create_route_table vpcId rtId name igw subnet).filter isCreateRoute =
      (match igw with
       | some g => [Call.createRoute rtId "0.0.0.0/0" g]
       | none => [])) ∧
    ((create_route_table vpcId rtId name igw subnet).filter isAssociate =
      (match subnet with
       | some sn => [Call.associateRouteTable rtId sn]
       | none => [])) ∧
    (igw = none → subnet = none →
      create_route_table vpcId rtId name igw subnet =
        [Call.createRouteTable vpcId, Call.createTags rtId name]) := by
  rcases igw with _ | g <;> rcases subnet with _ | sn <;>
    simp [create_route_table, List.filter_cons, List.filter_append,
      isCreateRoute, isAssociate]

/-- Witness for C10: with neither optional argument, the trace is the bare
table-create and tag calls, with no route and no association. -/
theorem create_route_table_optional_steps_witness :
    (create_route_table "vpc-1" "rtb-priv" "tutorial-private-rt" none none).filter
      isCreateRoute = [] ∧
    (create_route_table "vpc-1" "rtb-priv" "tutorial-private-rt" none none).filter
      isAssociate = [] ∧
    create_route_table "vpc-1" "rtb-priv" "tutorial-private-rt" none none =
      [Call.createRouteTable "vpc-1", Call.createTags "rtb-priv" "tutorial-private-rt"] := by
  have h := create_route_table_optional_steps "vpc-1" "rtb-priv" "tutorial-private-rt" none none
  exact ⟨h.1, h.2.1, h.2.2 rfl rfl⟩

/-- C6 (corrected), counterexample: the spec requires the overlapping
subnet request `10.0.1.0/25` (overlapping the existing `10.0.1.0/24`) to
be rejected before any provider call, but `create_subnet` performs no
validation: the very first call of its trace is already the provider
`create_subnet` call carrying the overlapping CIDR. -/
theorem overlapping_subnet_not_rejected_before_provider_call :
    cidrsOverlap (mkIpv4 10 0 1 0) 25 (mkIpv4 10 0 1 0) 24 = true ∧
    (create_subnet "vpc-1" "subnet-4" "10.0.1.0/25" "us-east-2a"
        "tutorial-extra-subnet" false).head? =
      some (Call.createSubnet "vpc-1" "10.0.1.0/25" "us-east-2a") := by
  constructor
  · decide
  · rfl

/-- C6 amended theorem: `create_subnet` performs no client-side check at
all — for every argument list its first issued call is the provider
subnet-create call, and it performs no provider lookup either. -/
theorem create_subnet_issues_provider_call_unconditionally
    (vpcId subnetId cidr az name : String) (is_public : Bool) :
    (create_subnet vpcId subnetId cidr az name is_public).head? =
      some (Call.createSubnet vpcId cidr az) ∧
    (create_subnet vpcId subnetId cidr az name is_public).countP isLookupCall = 0 := by
  constructor
  · rfl
  · rcases is_public <;>
      simp [create_subnet, List.countP_cons, List.countP_append, isLookupCall]

/-- C1 (corrected), counterexample: in a provider state already holding a
resource with each planned Name tag, re-running the script still performs
seven create calls — not zero, and nothing is skipped. -/
theorem rerun_with_existing_resources_still_creates :
    (plannedNames.all fun n => hasName preExisting n) = true ∧
    (applyRerun preExisting).countP isCreateCall = 7 ∧
    ¬ (applyRerun preExisting).countP isCreateCall = 0 := by
  decide

/-- C1 amended theorem: the script performs no lookup of provider state —
rerunning it issues the identical trace with its seven create calls and
zero lookup calls, regardless of what already exists, so apply is not
idempotent. -/
theorem apply_rerun_ignores_provider_state (existing : List TaggedResource) :
    applyRerun existing = mainCreateCalls ∧
    mainCreateCalls.countP isCreateCall = 7 ∧
    mainCreateCalls.countP isLookupCall = 0 := by
  refine ⟨rfl, by decide, by decide⟩

/-- C2 (corrected), counterexample: for the concrete plan, the teardown
visits resources grouped by kind (subnets, then the gateway, then the
non-main route tables, then the VPC), which is not the reverse of the
creation order (VPC, gateway, subnets, route tables). -/
theorem teardown_order_not_reverse_of_create :
    deletedIds (cleanup_vpc "vpc-1" postProvisionState) =
      ["subnet-1", "subnet-2", "subnet-3", "igw-1", "rtb-pub", "rtb-priv", "vpc-1"] ∧
    createdIds mainCreateCalls =
      ["vpc-1", "igw-1", "subnet-1", "subnet-2", "subnet-3", "rtb-pub", "rtb-priv"] ∧
    deletedIds (cleanup_vpc "vpc-1" postProvisionState) ≠
      (createdIds mainCreateCalls).reverse := by
  decide

/-- The route tables of a VPC in which one non-main table still carries a
live (non-main) association. -/
def liveAssocState : VpcState :=
  ⟨[], [], [⟨"rtb-1", [⟨"rtbassoc-x", false⟩]⟩]⟩

/-- C3 (corrected), counterexample: a route table with a live non-main
association is deleted directly — the cleanup trace contains its delete
call and no disassociation call at all, instead of failing fast with a
`TeardownBlockedError` or deleting the association first. -/
theorem routeTable_deleted_with_live_association :
    (⟨"rtb-1", [⟨"rtbassoc-x", false⟩]⟩ : RouteTableInfo).assocs ≠ [] ∧
    Call.deleteRouteTable "rtb-1" ∈ cleanup_vpc "vpc-1" liveAssocState ∧
    (cleanup_vpc "vpc-1" liveAssocState).countP isDisassociate = 0 := by
  decide

/-- C3 amended theorem: the cleanup never disassociates anything; every
route table without a main-marked association gets a direct delete call
(whatever associations it still carries), so on a real provider the delete
of an associated table raises a `ClientError` that propagates — there is
no `TeardownBlockedError` and no association removal. -/
theorem cleanup_never_disassociates (v : String) (s : VpcState)
    (rt : RouteTableInfo) (hrt : rt ∈ s.routeTables)
    (hmain : (rt.assocs.any fun a => a.main) = false) :
    Call.deleteRouteTable rt.rtid ∈ cleanup_vpc v s ∧
    (cleanup_vpc v s).countP isDisassociate = 0 := by
  constructor
  · rw [cleanup_eq_body]
    apply List.mem_append_left
    apply List.mem_append_right
    simp only [List.mem_map, List.mem_filter]
    exact ⟨rt, ⟨hrt, by simp [rtGuard_eq, hmain]⟩, rfl⟩
  · exact (cleanup_route_table_delete_iff_no_main_assoc v s).2

/-- Witness for C3's amended theorem at the concrete one-table state. -/
theorem cleanup_never_disassociates_witness :
    (⟨"rtb-1", [⟨"rtbassoc-x", false⟩]⟩ : RouteTableInfo) ∈ liveAssocState.routeTables ∧
    ((⟨"rtb-1", [⟨"rtbassoc-x", false⟩]⟩ : RouteTableInfo).assocs.any fun a => a.main) = false ∧
    (Call.deleteRouteTable "rtb-1" ∈ cleanup_vpc "vpc-9" liveAssocState ∧
     (cleanup_vpc "vpc-9" liveAssocState).countP isDisassociate = 0) :=
  ⟨by decide, by decide,
   cleanup_never_disassociates "vpc-9" liveAssocState
     ⟨"rtb-1", [⟨"rtbassoc-x", false⟩]⟩ (by decide) (by decide)⟩

/-- A run that returns a raised call stops right there: the issued calls
are the failure-free strict prefix of the trace followed by the raising
call, and nothing after it is issued. -/
theorem runCalls_some (fail : Call → Bool) :
    ∀ (l cs : List Call) (c : Call), runCalls fail l = (cs, some c) →
      ∃ init rest, cs = init ++ [c] ∧ l = init ++ c :: rest ∧
        init.countP fail = 0 ∧ fail c = true := by
  intro l
  induction l with
  | nil => intro cs c h; simp [runCalls] at h
  | cons a l ih =>
    intro cs c h
    by_cases ha : fail a
    · rw [runCalls, if_pos ha] at h
      simp only [Prod.mk.injEq, Option.some.injEq] at h
      obtain ⟨rfl, rfl⟩ := h
      exact ⟨[], l, by simp, by simp, by simp, ha⟩
    · rcases hr : runCalls fail l with ⟨cs', e⟩
      rw [runCalls, if_neg ha, hr] at h
      simp only [Prod.mk.injEq] at h
      obtain ⟨rfl, rfl⟩ := h
      obtain ⟨init, rest, rfl, rfl, hcount, hfail⟩ := ih cs' c hr
      refine ⟨a :: init, rest, by simp, by simp, ?_, hfail⟩
      simp [List.countP_cons, ha, hcount]

/-- A run that raises nothing executed the whole trace failure-free. -/
theorem runCalls_none (fail : Call → Bool) :
    ∀ (l cs : List Call), runCalls fail l = (cs, none) →
      ∀ c ∈ l, fail c = false := by
  intro l
  induction l with
  | nil => intro cs _ c hc; cases hc
  | cons a l ih =>
    intro cs h c hc
    by_cases ha : fail a
    · rw [runCalls, if_pos ha] at h
      simp at h
    · rcases hr : runCalls fail l with ⟨cs', e⟩
      rw [runCalls, if_neg ha, hr] at h
      simp only [Prod.mk.injEq] at h
      obtain ⟨rfl, rfl⟩ := h
      rcases List.mem_cons.mp hc with rfl | hc'
      · exact Bool.eq_false_iff.mpr ha
      · exact ih cs' hr c hc'

/-- A list is a `isPrefixOf` of itself followed by anything. -/
theorem isPrefixOf_self_append (l t : List Call) :
    l.isPrefixOf (l ++ t) = true := by
  induction l with
  | nil => simp [List.isPrefixOf]
  | cons a l ih => simp [List.isPrefixOf, ih]

/-- Failure behaviour of a provider on which deleting subnet `s-a`
raises. -/
def failDeleteSA : Call → Bool := fun c => decide (c = Call.deleteSubnet "s-a")

/-- A VPC with two subnets and an attached gateway. -/
def twoSubnetState : VpcState := ⟨["s-a", "s-b"], ["igw-x"], []⟩

/-- C4 (corrected), counterexample: when the delete of the first subnet
raises, the run surfaces the exception immediately — the independent
second subnet, the gateway, and the VPC are never attempted, and no
aggregate result collecting the error per resource is produced. -/
theorem cleanup_aborts_not_collects :
    (cleanupRun failDeleteSA "vpc-z" twoSubnetState).2 =
      some (Call.deleteSubnet "s-a") ∧
    Call.deleteSubnet "s-b" ∉ (cleanupRun failDeleteSA "vpc-z" twoSubnetState).1 ∧
    Call.detachIgw "vpc-z" "igw-x" ∉ (cleanupRun failDeleteSA "vpc-z" twoSubnetState).1 ∧
    Call.deleteVpc "vpc-z" ∉ (cleanupRun failDeleteSA "vpc-z" twoSubnetState).1 := by
  decide

/-- C4 amended theorem: the single `try/except ... raise` of `cleanup_vpc`
re-raises the first provider error: whenever a run reports a raised call,
that call is the last one issued, every earlier issued call succeeded, and
the issued calls form an initial segment of the planned trace — no
error collection, no continuation on independent branches. -/
theorem cleanup_stops_at_first_failure (fail : Call → Bool) (v : String)
    (s : VpcState) (cs : List Call) (c : Call)
    (h : cleanupRun fail v s = (cs, some c)) :
    fail c = true ∧ cs.getLast? = some c ∧ cs.dropLast.countP fail = 0 ∧
    cs.isPrefixOf (cleanup_vpc v s) = true := by
  obtain ⟨init, rest, rfl, hl, hcount, hfail⟩ :=
    runCalls_some fail (cleanup_vpc v s) cs c h
  refine ⟨hfail, ?_, ?_, ?_⟩
  · simp
  · simpa using hcount
  · have hsplit : cleanup_vpc v s = (init ++ [c]) ++ rest := by
      rw [hl]; simp
    rw [hsplit]
    exact isPrefixOf_self_append (init ++ [c]) rest

/-- Witness for C4's amended theorem at the two-subnet state. -/
theorem cleanup_stops_at_first_failure_witness :
    cleanupRun failDeleteSA "vpc-w" twoSubnetState =
      ([Call.deleteSubnet "s-a"], some (Call.deleteSubnet "s-a")) ∧
    (failDeleteSA (Call.deleteSubnet "s-a") = true ∧
     ([Call.deleteSubnet "s-a"] : List Call).getLast? = some (Call.deleteSubnet "s-a") ∧
     ([Call.deleteSubnet "s-a"] : List Call).dropLast.countP failDeleteSA = 0 ∧
     ([Call.deleteSubnet "s-a"] : List Call).isPrefixOf
       (cleanup_vpc "vpc-w" twoSubnetState) = true) :=
  ⟨by decide,
   cleanup_stops_at_first_failure failDeleteSA "vpc-w" twoSubnetState
     [Call.deleteSubnet "s-a"] (Call.deleteSubnet "s-a") (by decide)⟩

/-- Failure behaviour of a provider on which subnet `subnet-gone` was
already removed out-of-band, so its delete raises `NotFound`. -/
def failGone : Call → Bool := fun c => decide (c = Call.deleteSubnet "subnet-gone")

/-- A VPC whose listing still reports the out-of-band-deleted subnet. -/
def goneState : VpcState := ⟨["subnet-gone"], [], []⟩

/-- C5 (corrected), counterexample: deleting the already-absent subnet
(whose provider delete raises `NotFound`, modelled by `failGone`) makes
the run surface that call as a raised error — it is not treated as
success. -/
theorem absent_resource_delete_surfaces_error :
    (cleanupRun failGone "vpc-1" goneState).2 =
      some (Call.deleteSubnet "subnet-gone") ∧
    (cleanupRun failGone "vpc-1" goneState).2 ≠ none := by
  decide

/-- C5 amended theorem: the cleanup tolerates no provider error code at
all — if any call of the trace raises (including a `NotFound` for an
already-absent resource), the run reports a raised error rather than
success. -/
theorem cleanup_any_failure_raises (fail : Call → Bool) (v : String)
    (s : VpcState) (c : Call) (hc : c ∈ cleanup_vpc v s) (hf : fail c = true) :
    ((cleanupRun fail v s).2).isSome = true := by
  rcases hr : cleanupRun fail v s with ⟨cs, e⟩
  rcases e with _ | c'
  · exact absurd (runCalls_none fail (cleanup_vpc v s) cs hr c hc) (by simp [hf])
  · rfl

/-- Witness for C5's amended theorem at the absent-subnet state. -/
theorem cleanup_any_failure_raises_witness :
    Call.deleteSubnet "subnet-gone" ∈ cleanup_vpc "vpc-7" goneState ∧
    failGone (Call.deleteSubnet "subnet-gone") = true ∧
    ((cleanupRun failGone "vpc-7" goneState).2).isSome = true :=
  ⟨by decide, by decide,
   cleanup_any_failure_raises failGone "vpc-7" goneState
     (Call.deleteSubnet "subnet-gone") (by decide) (by decide)⟩

/-- C7 (confirmed): in every teardown trace the VPC delete is the single
final call — the preceding body contains no VPC delete and already
contains the delete of every subnet, the detach and delete of every
attached gateway, and the delete of every route table without a main
association (the non-default tables), so `delete_vpc` is issued only after
all of them. -/
theorem cleanup_deletes_children_before_vpc (v x g : String)
    (rt : RouteTableInfo) (s : VpcState) (hx : x ∈ s.subnets)
    (hg : g ∈ s.igws) (hrt : rt ∈ s.routeTables)
    (hmain : (rt.assocs.any fun a => a.main) = false) :
    cleanup_vpc v s = cleanupBody v s ++ [Call.deleteVpc v] ∧
    (cleanupBody v s).countP isDeleteVpcCall = 0 ∧
    Call.deleteSubnet x ∈ cleanupBody v s ∧
    Call.detachIgw v g ∈ cleanupBody v s ∧
    Call.deleteIgw g ∈ cleanupBody v s ∧
    Call.deleteRouteTable rt.rtid ∈ cleanupBody v s := by
  refine ⟨rfl, cleanupBody_countP_deleteVpc v s, ?_, ?_, ?_, ?_⟩
  · exact List.mem_append_left _ (List.mem_append_left _ (List.mem_map_of_mem _ hx))
  · refine List.mem_append_left _ (List.mem_append_right _ ?_)
    exact List.mem_flatMap.mpr ⟨g, hg, by simp⟩
  · refine List.mem_append_left _ (List.mem_append_right _ ?_)
    exact List.mem_flatMap.mpr ⟨g, hg, by simp⟩
  · refine List.mem_append_right _ ?_
    simp only [List.mem_map, List.mem_filter]
    exact ⟨rt, ⟨hrt, by simp [rtGuard_eq, hmain]⟩, rfl⟩

/-- Witness for C7 at the post-provisioning state. -/
theorem cleanup_deletes_children_before_vpc_witness :
    "subnet-1" ∈ postProvisionState.subnets ∧
    "igw-1" ∈ postProvisionState.igws ∧
    (⟨"rtb-pub", [⟨"rtbassoc-1", false⟩, ⟨"rtbassoc-2", false⟩]⟩ : RouteTableInfo) ∈
      postProvisionState.routeTables ∧
    (cleanup_vpc "vpc-1" postProvisionState =
      cleanupBody "vpc-1" postProvisionState ++ [Call.deleteVpc "vpc-1"] ∧
     (cleanupBody "vpc-1" postProvisionState).countP isDeleteVpcCall = 0 ∧
     Call.deleteSubnet "subnet-1" ∈ cleanupBody "vpc-1" postProvisionState ∧
     Call.detachIgw "vpc-1" "igw-1" ∈ cleanupBody "vpc-1" postProvisionState ∧
     Call.deleteIgw "igw-1" ∈ cleanupBody "vpc-1" postProvisionState ∧
     Call.deleteRouteTable "rtb-pub" ∈ cleanupBody "vpc-1" postProvisionState) :=
  ⟨by decide, by decide, by decide,
   cleanup_deletes_children_before_vpc "vpc-1" "subnet-1" "igw-1"
     ⟨"rtb-pub", [⟨"rtbassoc-1", false⟩, ⟨"rtbassoc-2", false⟩]⟩ postProvisionState
     (by decide) (by decide) (by decide) (by decide)⟩

/-- Splitting an append at an occurrence of `b` that cannot lie in the
left part: the split point lies in the right part. -/
theorem mem_split_right {b : Call} :
    ∀ (l1 : List Call) {l2 pre post : List Call}, b ∉ l1 →
      l1 ++ l2 = pre ++ b :: post →
      ∃ pre2, pre = l1 ++ pre2 ∧ l2 = pre2 ++ b :: post := by
  intro l1
  induction l1 with
  | nil =>
    intro l2 pre post _ h
    exact ⟨pre, by simp, by simpa using h⟩
  | cons a l1 ih =>
    intro l2 pre post hb h
    rcases pre with _ | ⟨p, pre'⟩
    · simp only [List.cons_append, List.nil_append, List.cons.injEq] at h
      exact absurd (h.1 ▸ List.mem_cons_self a l1) hb
    · simp only [List.cons_append, List.cons.injEq] at h
      obtain ⟨rfl, h2⟩ := h
      obtain ⟨pre2, rfl, h3⟩ := ih (fun hmem => hb (List.mem_cons_of_mem _ hmem)) h2
      exact ⟨pre2, by simp, h3⟩

/-- In the gateway segment of the cleanup trace (followed by any remainder
free of gateway deletes), every occurrence of the delete of gateway `g` is
preceded by its detach. -/
theorem igw_segment_detach_first (v g : String) :
    ∀ (igws : List String) (R pre post : List Call),
      Call.deleteIgw g ∉ R →
      (igws.flatMap fun i => [Call.detachIgw v i, Call.deleteIgw i]) ++ R =
        pre ++ Call.deleteIgw g :: post →
      Call.detachIgw v g ∈ pre := by
  intro igws
  induction igws with
  | nil =>
    intro R pre post hR h
    simp only [List.flatMap_nil, List.nil_append] at h
    exact absurd (h ▸ List.mem_append_right pre (List.mem_cons_self _ post)) hR
  | cons i is ih =>
    intro R pre post hR h
    simp only [List.flatMap_cons, List.cons_append, List.append_assoc] at h
    rcases pre with _ | ⟨p1, pre1⟩
    · simp only [List.nil_append, List.cons.injEq] at h
      exact absurd h.1 (by simp)
    · rcases pre1 with _ | ⟨p2, pre2⟩
      · simp only [List.cons_append, List.nil_append, List.cons.injEq] at h
        obtain ⟨rfl, h2, -⟩ := h
        cases h2
        simp
      · simp only [List.cons_append, List.cons.injEq] at h
        obtain ⟨rfl, rfl, h3⟩ := h
        have hm := ih R pre2 post hR h3
        simp [hm]

/-- C8 (confirmed): an attached internet gateway is never deleted while
attached — in every teardown trace, wherever the gateway's delete call
occurs, its detach call occurs strictly before it; and for every attached
gateway the delete call is indeed issued. -/
theorem igw_detached_before_deleted (v g : String) (s : VpcState)
    (hg : g ∈ s.igws) (pre post : List Call)
    (hsplit : cleanup_vpc v s = pre ++ Call.deleteIgw g :: post) :
    Call.detachIgw v g ∈ pre ∧ Call.deleteIgw g ∈ cleanup_vpc v s := by
  constructor
  · have h : (s.subnets.map Call.deleteSubnet) ++
        ((s.igws.flatMap fun i => [Call.detachIgw v i, Call.deleteIgw i]) ++
          (((s.routeTables.filter fun rt =>
              rt.assocs.isEmpty || !(rt.assocs.any fun a => a.main)).map fun rt =>
              Call.deleteRouteTable rt.rtid) ++ [Call.deleteVpc v])) =
        pre ++ Call.deleteIgw g :: post := by
      rw [← hsplit, cleanup_vpc]
      simp [List.append_assoc]
    have hnotA : Call.deleteIgw g ∉ s.subnets.map Call.deleteSubnet := by
      simp
    obtain ⟨pre2, rfl, h2⟩ := mem_split_right _ hnotA h
    have hnotR : Call.deleteIgw g ∉
        ((s.routeTables.filter fun rt =>
            rt.assocs.isEmpty || !(rt.assocs.any fun a => a.main)).map fun rt =>
            Call.deleteRouteTable rt.rtid) ++ [Call.deleteVpc v] := by
      simp
    exact List.mem_append_right _ (igw_segment_detach_first v g s.igws _ pre2 post hnotR h2)
  · rw [cleanup_eq_body]
    refine List.mem_append_left _ (List.mem_append_left _ (List.mem_append_right _ ?_))
    exact List.mem_flatMap.mpr ⟨g, hg, by simp⟩

/-- Witness for C8 at the post-provisioning state: the concrete trace
splits around the gateway delete, and the detach is in the part before
it. -/
theorem igw_detached_before_deleted_witness :
    "igw-1" ∈ postProvisionState.igws ∧
    cleanup_vpc "vpc-1" postProvisionState =
      [Call.deleteSubnet "subnet-1", Call.deleteSubnet "subnet-2",
       Call.deleteSubnet "subnet-3", Call.detachIgw "vpc-1" "igw-1"] ++
      Call.deleteIgw "igw-1" ::
        [Call.deleteRouteTable "rtb-pub", Call.deleteRouteTable "rtb-priv",
         Call.deleteVpc "vpc-1"] ∧
    (Call.detachIgw "vpc-1" "igw-1" ∈
      [Call.deleteSubnet "subnet-1", Call.deleteSubnet "subnet-2",
       Call.deleteSubnet "subnet-3", Call.detachIgw "vpc-1" "igw-1"] ∧
     Call.deleteIgw "igw-1" ∈ cleanup_vpc "vpc-1" postProvisionState) :=
  ⟨by decide, by decide,
   igw_detached_before_deleted "vpc-1" "igw-1" postProvisionState (by decide)
     [Call.deleteSubnet "subnet-1", Call.deleteSubnet "subnet-2",
      Call.deleteSubnet "subnet-3", Call.detachIgw "vpc-1" "igw-1"]
     [Call.deleteRouteTable "rtb-pub", Call.deleteRouteTable "rtb-priv",
      Call.deleteVpc "vpc-1"] (by decide)⟩

/-- The Kahn loop only ever emits a node whose dependencies were already
emitted, so the reverse-chronological emission list always satisfies
`revGood`. -/
theorem revGood_kahnAux (f : String → List String) :
    ∀ (fuel : Nat) (pending emitted : List String), revGood f emitted →
      revGood f ((kahnAux f fuel pending emitted).reverse) := by
  intro fuel
  induction fuel with
  | zero => intro pending emitted h; simpa [kahnAux] using h
  | succ n ih =>
    intro pending emitted h
    rw [kahnAux]
    rcases hfind : pending.find? (fun n => (f n).all fun d => emitted.contains d) with _ | m
    · simpa using h
    · have hm := List.find?_some hfind
      apply ih
      refine ⟨?_, h⟩
      intro d hd
      have hall := List.all_eq_true.mp hm d hd
      simpa using hall

/-- In a `revGood` list, the dependencies of any element occur after it. -/
theorem revGood_middle (f : String → List String) :
    ∀ (A : List String) (x : String) (B : List String),
      revGood f (A ++ x :: B) → ∀ d ∈ f x, d ∈ B := by
  intro A
  induction A with
  | nil => intro x B h; exact h.1
  | cons a A ih => intro x B h; exact ih x B h.2

/-- C2 theorem (amended): the spec-modelled `topological_create_order`
places every dependency strictly before its dependents (wherever a node
occurs in the output, each of its dependencies occurs in the part before
it), and `topological_delete_order` is its exact reverse; the script's
concrete teardown, however, is the kind-grouped order, not the reverse of
the creation order. -/
theorem topo_order_sound_and_teardown_grouped (g : DepGraph)
    (pre post : List String) (x d : String)
    (hsplit : topological_create_order g = pre ++ x :: post)
    (hd : d ∈ depsOf g x) :
    d ∈ pre ∧
    topological_delete_order g = (topological_create_order g).reverse ∧
    deletedIds (cleanup_vpc "vpc-1" postProvisionState) ≠
      (createdIds mainCreateCalls).reverse := by
  refine ⟨?_, rfl, by decide⟩
  have hg : revGood (fun n => depsOf g n) ((topological_create_order g).reverse) :=
    revGood_kahnAux _ _ _ [] trivial
  rw [hsplit] at hg
  have hrev : (pre ++ x :: post).reverse = post.reverse ++ x :: pre.reverse := by
    simp
  rw [hrev] at hg
  have hmem := revGood_middle _ post.reverse x pre.reverse hg d hd
  simpa using hmem

/-- Witness for C2's amended theorem at the concrete plan graph, splitting
the computed create order at the gateway node whose dependency is the
VPC. -/
theorem topo_order_sound_and_teardown_grouped_witness :
    topological_create_order planGraph =
      ["vpc"] ++ "igw" :: ["public-subnet-1", "public-subnet-2",
        "private-subnet-1", "public-rt", "private-rt"] ∧
    "vpc" ∈ depsOf planGraph "igw" ∧
    ("vpc" ∈ (["vpc"] : List String) ∧
     topological_delete_order planGraph = (topological_create_order planGraph).reverse ∧
     deletedIds (cleanup_vpc "vpc-1" postProvisionState) ≠
       (createdIds mainCreateCalls).reverse) :=
  ⟨by decide, by decide,
   topo_order_sound_and_teardown_grouped planGraph ["vpc"]
     ["public-subnet-1", "public-subnet-2", "private-subnet-1",
      "public-rt", "private-rt"] "igw" "vpc" (by decide) (by decide)⟩
